import Mathlib

/-!
Verification development for the INGRES groundwater chatbot's
query-understanding and data-resolution pipeline
(`src/query_processor.py`, class `QueryProcessor`).

The Python source is shallowly embedded:
* SQLite rows become Lean structures; a database is a `Store` of row lists.
* SQL SELECT/JOIN/WHERE/ORDER BY/LIMIT become list comprehension,
  filter, sort and take on the row lists, in the nested-loop order of the
  declared joins.
* REAL columns become `ℚ`; Python `round(x, 2)` becomes `round2`
  (half-up at the second decimal; float half-to-even at exact ties is not
  modelled, no claim depends on a tie).
* Python regular expressions used by `_initialize_patterns` become a small
  regex AST `RE` with a Brzozowski-derivative matcher; `re.search` becomes
  `research` (does some substring of the text belong to the pattern's
  language).
* `list(set(xs))` (iteration order of a CPython set) becomes an abstract
  parameter `setIter` constrained to return exactly the members of its
  input.
* A `sqlite3` failure while reading the reference catalog becomes the
  `none` case of an `Option Catalog` argument.
-/

namespace Ingres

/-! ## Character and string utilities -/

/-- The characters of a string (Python strings are handled as `List Char`). -/
def chars (s : String) : List Char := s.data

/-- Python `str.lower()` on a single character (ASCII-adequate). -/
def lowerC (c : Char) : Char := c.toLower

/-- Python `str.lower()`. -/
def lowerL (s : List Char) : List Char := s.map lowerC

/-- Python `\w` / identifier characters: letters, digits, underscore. -/
def isWordCh (c : Char) : Bool := c.isAlphanum || c == '_'

/-- Python `\s` whitespace (ASCII-adequate). -/
def isSpaceCh (c : Char) : Bool := c == ' ' || c == '\t' || c == '\n' || c == '\r'

/-- Does `n` occur at the start of `h`? (`str.startswith`). -/
def leadsWith : List Char → List Char → Bool
  | [], _ => true
  | _ :: _, [] => false
  | a :: as, b :: bs => a == b && leadsWith as bs

/-- Substring containment, Python `n in h` on strings / SQL `LIKE '%n%'`. -/
def hasSub (n : List Char) : List Char → Bool
  | [] => leadsWith n []
  | c :: t => leadsWith n (c :: t) || hasSub n t

/-- Helper of `splitWs`: `acc` is the reversed current token. -/
def splitWsAux : List Char → List Char → List (List Char)
  | [], acc => if acc.isEmpty then [] else [acc.reverse]
  | c :: t, acc =>
    if isSpaceCh c then
      if acc.isEmpty then splitWsAux t [] else acc.reverse :: splitWsAux t []
    else splitWsAux t (c :: acc)

/-- Python `str.split()`: split on whitespace runs, discarding empties. -/
def splitWs (s : List Char) : List (List Char) := splitWsAux s []

/-- Python `str.title()` (ASCII-adequate): a cased character is uppercased
when the previous character is not a letter, lowercased otherwise. -/
def titleFrom : Bool → List Char → List Char
  | _, [] => []
  | prevAlpha, c :: t =>
    (if c.isAlpha then (if prevAlpha then c.toLower else c.toUpper) else c)
      :: titleFrom c.isAlpha t

/-- Python `str.title()`. -/
def titleL (s : List Char) : List Char := titleFrom false s

/-! ## Regular expressions

AST and derivative matcher for the subset of Python `re` syntax used by
`QueryProcessor._initialize_patterns`: literals, `.`, `\w`, `\d`, `\s`,
concatenation, alternation and `*` (from which `\s+`, `\w+`, `\d{4}` and
`.*` are built).  Capture groups only group (no pattern in the source ever
reads a group), so they are not represented. -/

inductive RE : Type
  | empt : RE
  | eps : RE
  | lit : Char → RE
  | dot : RE
  | wordc : RE
  | digitc : RE
  | spacec : RE
  | alt : RE → RE → RE
  | cat : RE → RE → RE
  | star : RE → RE
deriving Repr, DecidableEq

/-- Does the language of `r` contain the empty string? -/
def nullable : RE → Bool
  | .empt => false
  | .eps => true
  | .lit _ => false
  | .dot => false
  | .wordc => false
  | .digitc => false
  | .spacec => false
  | .alt a b => nullable a || nullable b
  | .cat a b => nullable a && nullable b
  | .star _ => true

/-- Alternation, collapsing the empty language (keeps derivatives small). -/
def mkAlt : RE → RE → RE
  | .empt, b => b
  | a, .empt => a
  | a, b => .alt a b

/-- Concatenation, collapsing `empt` and `eps` (keeps derivatives small). -/
def mkCat : RE → RE → RE
  | .empt, _ => .empt
  | _, .empt => .empt
  | .eps, b => b
  | a, .eps => a
  | a, b => .cat a b

/-- Brzozowski derivative of `r` by the character `c`. -/
def derivC : RE → Char → RE
  | .empt, _ => .empt
  | .eps, _ => .empt
  | .lit a, c => if a == c then .eps else .empt
  | .dot, c => if c == '\n' then .empt else .eps
  | .wordc, c => if isWordCh c then .eps else .empt
  | .digitc, c => if c.isDigit then .eps else .empt
  | .spacec, c => if isSpaceCh c then .eps else .empt
  | .alt a b, c => mkAlt (derivC a c) (derivC b c)
  | .cat a b, c =>
    if nullable a then mkAlt (mkCat (derivC a c) b) (derivC b c)
    else mkCat (derivC a c) b
  | .star a, c => mkCat (derivC a c) (.star a)

/-- Does some prefix of `s` belong to the language of `r`? -/
def matchPre (r : RE) : List Char → Bool
  | [] => nullable r
  | c :: t => nullable r || matchPre (derivC r c) t

/-- Python `re.search(r, s) is not None`: does some substring of `s`
belong to the language of `r`? -/
def research (r : RE) : List Char → Bool
  | [] => nullable r
  | c :: t => matchPre r (c :: t) || research r t

/-- Concatenation of a pattern sequence. -/
def rcat (l : List RE) : RE := l.foldr RE.cat RE.eps

/-- Alternation of a nonempty pattern list, `(p1|p2|...)`. -/
def ralt : List RE → RE
  | [] => RE.empt
  | [r] => r
  | r :: rest => RE.alt r (ralt rest)

/-- Literal string pattern. -/
def rs (s : String) : RE := rcat (s.data.map RE.lit)

/-- Pattern `.*`. -/
def anyseq : RE := RE.star RE.dot

/-- Pattern `\s+`. -/
def wsone : RE := RE.cat RE.spacec (RE.star RE.spacec)

/-- Pattern `\w+`. -/
def wordone : RE := RE.cat RE.wordc (RE.star RE.wordc)

/-- Pattern `\d{4}`. -/
def digit4 : RE := rcat [RE.digitc, RE.digitc, RE.digitc, RE.digitc]

/-! ## Reference catalog and entity extraction -/

/-- The three name lists `_extract_locations` reads from the store
(`SELECT state_name FROM states`, etc.). -/
structure Catalog : Type where
  states : List String
  districts : List String
  blocks : List String
deriving Repr, DecidableEq

/-- First whitespace token of a string, Python `s.split()[0]`
(empty for an all-whitespace string, where Python would raise). -/
def firstWord (s : List Char) : List Char :=
  match splitWs s with
  | [] => []
  | w :: _ => w

/-- `QueryProcessor._extract_locations`.

`setIter` stands for CPython's `list(set(...))` (hash-table iteration
order); the store access is `cat : Option Catalog`, `none` when any of the
three SELECTs raises — the `try` block then falls through to
`return list(set(locations))` with `locations` still empty, because all
three SELECTs precede every append. -/
def extract_locations (setIter : List (List Char) → List (List Char))
    (cat : Option Catalog) (q : List Char) : List (List Char) :=
  match cat with
  | none => setIter []
  | some c =>
    let states := c.states.map (fun s => lowerL (chars s))
    let districts := c.districts.map (fun s => lowerL (chars s))
    let blocks := c.blocks.map (fun s => lowerL (chars s))
    let query_words := splitWs (lowerL q)
    -- exact-match loop over the query's words
    let l1 := query_words.foldl (fun acc word =>
      if word ∈ states then acc ++ [titleL word]
      else if word ∈ districts.map (fun d => lowerL (firstWord d)) then
        match districts.find? (fun d => leadsWith word d) with
        | some d => acc ++ [titleL d]
        | none => acc
      else acc) []
    -- multi-word substring checks over the whole query
    let query_lower := lowerL q
    let l2 := (states.filter (fun s => hasSub s query_lower)).map titleL
    let l3 := (districts.filter (fun d => hasSub d query_lower)).map titleL
    let l4 := (blocks.filter (fun b => hasSub b query_lower)).map titleL
    setIter (l1 ++ l2 ++ l3 ++ l4)

/-- Numeric value of the four digit characters of a matched year. -/
def yearVal (c1 c2 c3 c4 : Char) : Nat :=
  ((c1.toNat - 48) * 1000 + (c2.toNat - 48) * 100 +
    (c3.toNat - 48) * 10 + (c4.toNat - 48))

/-- The guard of one `re.findall(r'\b(20\d{2})\b', ...)` match attempt at
the current position: `prev` is the character before the position
(`none` at the start of the string). -/
def yearHere (prev : Option Char) : List Char → Bool
  | c1 :: c2 :: c3 :: c4 :: rest =>
    (match prev with | none => true | some p => !isWordCh p) &&
    c1 == '2' && c2 == '0' && c3.isDigit && c4.isDigit &&
    (match rest with | [] => true | n :: _ => !isWordCh n)
  | _ => false

/-- `re.findall(r'\b(20\d{2})\b', query)` as Python's scanner runs it:
try the leftmost position; on a match, continue right after it, otherwise
advance one character. -/
def yearsFrom (prev : Option Char) : List Char → List Nat
  | c1 :: c2 :: c3 :: c4 :: rest =>
    if yearHere prev (c1 :: c2 :: c3 :: c4 :: rest) then
      yearVal c1 c2 c3 c4 :: yearsFrom (some c4) rest
    else
      yearsFrom (some c1) (c2 :: c3 :: c4 :: rest)
  | _ => []

/-- Year extraction over a whole query (`[int(year) for year in years]`). -/
def extractYears (q : List Char) : List Nat := yearsFrom none q

/-- Numeric value of the first four characters (0 on shorter lists,
which no caller reaches at a matching position). -/
def valHead : List Char → Nat
  | c1 :: c2 :: c3 :: c4 :: _ => yearVal c1 c2 c3 c4
  | _ => 0

/-- Does a (not necessarily delimited) `20\d\d` substring start at the
head of `s`? -/
def rawYearHead : List Char → Bool
  | c1 :: c2 :: c3 :: c4 :: _ =>
    c1 == '2' && c2 == '0' && c3.isDigit && c4.isDigit
  | _ => false

/-- Stated from the claim's words, not from the source: all 4-character
substrings of the query matching `20\d\d`, as integers, in order of
starting position (duplicates preserved).  Used to compare the claimed
behavior of year extraction with the source's. -/
def specYears (q : List Char) : List Nat :=
  ((List.range q.length).filter (fun i => rawYearHead (q.drop i))).map
    (fun i => valHead (q.drop i))

/-- The character just before relative position `i` of `s`, where `prev`
precedes `s` itself. -/
def prevAt (prev : Option Char) (s : List Char) (i : Nat) : Option Char :=
  if i = 0 then prev else (s.drop (i - 1)).head?

/-- Declarative counterpart of `yearsFrom`: the word-boundary-delimited
`20\d\d` occurrences at every position of `s`, in position order. -/
def boundedYearsFrom (prev : Option Char) (s : List Char) : List Nat :=
  ((List.range s.length).filter (fun i =>
    yearHere (prevAt prev s i) (s.drop i))).map (fun i => valHead (s.drop i))

/-- All word-boundary-delimited `20\d\d` occurrences of the query. -/
def boundedYears (q : List Char) : List Nat := boundedYearsFrom none q

/-- Category extraction: the four independent substring checks of
`_extract_entities`, appending in source order. -/
def extractCats (q : List Char) : List String :=
  (if hasSub (chars "safe") q then ["Safe"] else []) ++
  (if hasSub (chars "critical") q then ["Critical"] else []) ++
  (if hasSub (chars "semi") q || hasSub (chars "semi-critical") q then
    ["Semi-Critical"] else []) ++
  (if hasSub (chars "over") q || hasSub (chars "exploited") q then
    ["Over-Exploited"] else [])

/-- The entities dictionary.  A key absent from the Python dict is the
empty list here: `_extract_entities` inserts each key exactly when its
list is nonempty, and every consumer reads keys with
`entities.get(k, default)` guarded by truthiness, which treats a missing
key and an empty list alike. -/
structure Entities : Type where
  locations : List (List Char)
  years : List Nat
  categories : List String
deriving Repr, DecidableEq

/-- `QueryProcessor._extract_entities` (the `intent` and `match` arguments
are never read, so they are not modelled). -/
def extract_entities (setIter : List (List Char) → List (List Char))
    (cat : Option Catalog) (q : List Char) : Entities :=
  { locations := extract_locations setIter cat q
    years := extractYears q
    categories := extractCats q }

/-! ## Intent classification -/

/-- `QueryProcessor._initialize_patterns`: the ordered intent → patterns
table (Python 3.7+ dicts iterate in insertion order). -/
def intentTable : List (String × List RE) :=
  [ ("groundwater_status",
      [ rcat [ralt [rs "what", rs "show", rs "tell"], anyseq,
              ralt [rs "groundwater", rs "water"], anyseq, rs "status",
              anyseq, ralt [rs "of", rs "in", rs "for"], wsone, wordone],
        rcat [rs "status", anyseq, ralt [rs "of", rs "in", rs "for"],
              wsone, wordone],
        rcat [rs "groundwater", anyseq, wordone, wsone,
              ralt [rs "district", rs "block", rs "state"]] ]),
    ("critical_areas",
      [ rcat [ralt [rs "show", rs "list", rs "which"], anyseq,
              ralt [rs "critical", rs "over-exploited", rs "danger"]],
        rcat [rs "areas", anyseq,
              ralt [rs "critical", rs "over-exploited", rs "danger"]],
        rcat [ralt [rs "critical", rs "over-exploited"], anyseq,
              ralt [rs "areas", rs "blocks", rs "districts"]] ]),
    ("safe_areas",
      [ rcat [ralt [rs "show", rs "list", rs "which"], anyseq,
              ralt [rs "safe", rs "good"], anyseq, rs "areas"],
        rcat [rs "areas", anyseq, rs "safe"],
        rcat [rs "safe", anyseq,
              ralt [rs "areas", rs "blocks", rs "districts"]] ]),
    ("water_level",
      [ rcat [rs "water level", anyseq, ralt [rs "of", rs "in", rs "for"],
              wsone, wordone],
        rcat [ralt [rs "depth", rs "level"], anyseq, rs "water", anyseq,
              ralt [rs "of", rs "in", rs "for"], wsone, wordone],
        rcat [rs "how deep", anyseq, rs "water", anyseq,
              ralt [rs "in", rs "at"], wsone, wordone] ]),
    ("historical",
      [ rcat [ralt [rs "historical", rs "history", rs "trend", rs "past"],
              anyseq, ralt [rs "data", rs "information", rs "records"]],
        rcat [ralt [rs "show", rs "get"], anyseq,
              ralt [rs "trend", rs "historical"]],
        rcat [rs "data", anyseq, ralt [rs "from", rs "between"], wsone,
              digit4] ]),
    ("recharge",
      [ rcat [ralt [rs "recharge", rs "replenishment"], anyseq,
              ralt [rs "rate", rs "data", rs "information"]],
        rcat [rs "annual", anyseq, rs "recharge"],
        rcat [rs "groundwater", anyseq, rs "recharge"] ]),
    ("extraction",
      [ rcat [ralt [rs "extraction", rs "withdrawal", rs "usage"], anyseq,
              ralt [rs "rate", rs "data", rs "information"]],
        rcat [rs "how much", anyseq, rs "extract"],
        rcat [rs "groundwater", anyseq,
              ralt [rs "extraction", rs "usage"]] ]),
    ("comparison",
      [ rcat [rs "compare", anyseq, ralt [rs "between", rs "with"]],
        rcat [rs "difference", anyseq, rs "between"],
        rcat [ralt [rs "better", rs "worse"], anyseq, rs "than"] ]),
    ("help",
      [ ralt [rs "help", rs "what can you do", rs "features",
              rs "capabilities"],
        rcat [rs "how", anyseq,
              ralt [rs "to use", rcat [rs "does", anyseq, rs "work"]]] ]) ]

/-- The nested loop of `classify_intent`: first intent (in table order)
one of whose patterns matches somewhere in the query. -/
def findIntent : List (String × List RE) → List Char → Option String
  | [], _ => none
  | (i, ps) :: rest, ql =>
    if ps.any (fun p => research p ql) then some i else findIntent rest ql

/-- `QueryProcessor.classify_intent`. -/
def classify_intent (tbl : List (String × List RE))
    (setIter : List (List Char) → List (List Char)) (cat : Option Catalog)
    (q : List Char) : String × Entities :=
  let query_lower := lowerL q
  match findIntent tbl query_lower with
  | some intent => (intent, extract_entities setIter cat query_lower)
  | none => ("general", extract_entities setIter cat query_lower)

/-! ## The relational store -/

/-- A row of the `states` table. -/
structure StateR : Type where
  state_id : Nat
  state_name : String
deriving Repr, DecidableEq

/-- A row of the `districts` table. -/
structure DistrictR : Type where
  district_id : Nat
  district_name : String
  state_id : Nat
deriving Repr, DecidableEq

/-- A row of the `blocks` table. -/
structure BlockR : Type where
  block_id : Nat
  block_name : String
  district_id : Nat
deriving Repr, DecidableEq

/-- A row of the `groundwater_assessment` table (REAL columns as `ℚ`). -/
structure AssessmentR : Type where
  block_id : Nat
  assessment_year : Nat
  annual_recharge_mcm : ℚ
  extractable_resources_mcm : ℚ
  total_extraction_mcm : ℚ
  stage_of_extraction : ℚ
  category : String
  water_level_pre_monsoon : ℚ
  water_level_post_monsoon : ℚ
deriving Repr, DecidableEq

/-- The relational store read by the resolver. -/
structure Store : Type where
  states : List StateR
  districts : List DistrictR
  blocks : List BlockR
  assessments : List AssessmentR
deriving Repr, DecidableEq

/-- The catalog `_extract_locations` reads from a reachable store. -/
def catalogOf (db : Store) : Catalog :=
  { states := db.states.map (fun s => s.state_name)
    districts := db.districts.map (fun d => d.district_name)
    blocks := db.blocks.map (fun b => b.block_name) }

/-- One row of
`groundwater_assessment JOIN blocks JOIN districts JOIN states`. -/
structure Row : Type where
  ga : AssessmentR
  b : BlockR
  d : DistrictR
  s : StateR
deriving Repr, DecidableEq

/-- The three-way inner join shared by every per-block query, in the
nested-loop order of the declared `JOIN ... ON` clauses. -/
def joinedRows (db : Store) : List Row :=
  db.assessments.flatMap (fun ga =>
    (db.blocks.filter (fun b => b.block_id == ga.block_id)).flatMap (fun b =>
      (db.districts.filter (fun d => d.district_id == b.district_id)).flatMap
        (fun d =>
          (db.states.filter (fun s => s.state_id == d.state_id)).map
            (fun s => { ga := ga, b := b, d := d, s := s }))))

/-- Python `round(x, 2)` (half-up at exact ties; the float half-to-even
tiebreak is not modelled, no claim depends on a tie). -/
def round2 (x : ℚ) : ℚ := (round (x * 100) : ℤ) / 100

/-- SQL `AVG` over a nonempty column (callers guard emptiness). -/
def avgQ (l : List ℚ) : ℚ := l.sum / l.length

/-- The `WHERE (LOWER(s.state_name) LIKE '%loc%' OR
LOWER(d.district_name) LIKE '%loc%')` test, with `loc = location.lower()`.
(`LIKE` metacharacters inside the location are not modelled; no catalog
name and no default location contains `%` or `_`.) -/
def locMatch (location : List Char) (r : Row) : Bool :=
  hasSub (lowerL location) (lowerL (chars r.s.state_name)) ||
  hasSub (lowerL location) (lowerL (chars r.d.district_name))

/-- Insertion of one element for `sortLe`. -/
def insertLe (le : α → α → Bool) (a : α) : List α → List α
  | [] => [a]
  | b :: t => if le a b then a :: b :: t else b :: insertLe le a t

/-- Insertion sort: the model of SQL `ORDER BY`. -/
def sortLe (le : α → α → Bool) : List α → List α
  | [] => []
  | a :: t => insertLe le a (sortLe le t)

/-! ## Result record shapes (the per-intent response dictionaries) -/

/-- One entry of `blocks` in the `groundwater_status` response. -/
structure GSBlockRec : Type where
  block_name : String
  category : String
  stage_of_extraction : ℚ
  water_level : ℚ
  annual_recharge : ℚ
  district : String
  state : String
deriving Repr, DecidableEq

/-- One entry of `critical_areas`. -/
structure CritRec : Type where
  block : String
  district : String
  state : String
  category : String
  extraction_percentage : ℚ
deriving Repr, DecidableEq

/-- One entry of `safe_areas`. -/
structure SafeRec : Type where
  block : String
  district : String
  state : String
  extraction_percentage : ℚ
  annual_recharge : ℚ
deriving Repr, DecidableEq

/-- One entry of `water_levels`. -/
structure WLRec : Type where
  block : String
  pre_monsoon : ℚ
  post_monsoon : ℚ
  year : Nat
deriving Repr, DecidableEq

/-- One entry of `historical_trends`. -/
structure HistRec : Type where
  year : Nat
  avg_extraction : ℚ
  avg_water_level : ℚ
  blocks_assessed : Nat
deriving Repr, DecidableEq

/-- One entry of `recharge_data`. -/
structure RechRec : Type where
  block : String
  annual_recharge : ℚ
  extractable_resources : ℚ
deriving Repr, DecidableEq

/-- One entry of `extraction_data`. -/
structure ExtRec : Type where
  block : String
  total_extraction : ℚ
  extraction_stage : ℚ
  category : String
deriving Repr, DecidableEq

/-- The `general_stats` record. -/
structure GenStats : Type where
  states_covered : Nat
  districts_covered : Nat
  blocks_covered : Nat
  average_extraction_stage : ℚ
deriving Repr, DecidableEq

/-- The intent-tagged response dictionary shapes of the data-fetch
methods. -/
inductive RespData : Type
  | groundwater (location : List Char) (year : Nat) (blocks : List GSBlockRec)
  | critical (critical_areas : List CritRec)
  | safe (safe_areas : List SafeRec)
  | waterLoc (location : List Char) (water_levels : List WLRec)
  | waterNat (pre_monsoon post_monsoon : ℚ)
  | historical (historical_trends : List HistRec) (location : List Char)
  | rechargeLoc (location : List Char) (recharge_data : List RechRec)
  | rechargeNat (average_annual_recharge average_extractable total_recharge : ℚ)
  | extractionLoc (location : List Char) (extraction_data : List ExtRec)
  | extractionNat (average_extraction average_stage total_extraction : ℚ)
  | helpInfo (lines : List String)
  | general (stats : GenStats)
deriving Repr, DecidableEq

/-! ## The per-intent data-fetch methods -/

/-- Row selection of `_get_groundwater_status`: state-or-district
substring match and the requested year, `LIMIT 10`. -/
def gsRows (db : Store) (location : List Char) (year : Nat) : List Row :=
  ((joinedRows db).filter (fun r =>
    locMatch location r && r.ga.assessment_year == year)).take 10

/-- `QueryProcessor._get_groundwater_status`. -/
def get_groundwater_status (db : Store) (e : Entities) : RespData :=
  let location := match e.locations with | [] => chars "Delhi" | l :: _ => l
  let year := match e.years with | [] => 2024 | y :: _ => y
  .groundwater location year ((gsRows db location year).map (fun r =>
    { block_name := r.b.block_name
      category := r.ga.category
      stage_of_extraction := round2 r.ga.stage_of_extraction
      water_level := round2 r.ga.water_level_pre_monsoon
      annual_recharge := round2 r.ga.annual_recharge_mcm
      district := r.d.district_name
      state := r.s.state_name }))

/-- Row selection of `_get_critical_areas`: category in
`(Critical, Over-Exploited)`, year 2024, stage descending, `LIMIT 15`. -/
def criticalRows (db : Store) : List Row :=
  (sortLe (fun r1 r2 => decide (r2.ga.stage_of_extraction ≤ r1.ga.stage_of_extraction))
    ((joinedRows db).filter (fun r =>
      (r.ga.category == "Critical" || r.ga.category == "Over-Exploited") &&
      r.ga.assessment_year == 2024))).take 15

/-- `QueryProcessor._get_critical_areas`. -/
def get_critical_areas (db : Store) : RespData :=
  .critical ((criticalRows db).map (fun r =>
    { block := r.b.block_name
      district := r.d.district_name
      state := r.s.state_name
      category := r.ga.category
      extraction_percentage := round2 r.ga.stage_of_extraction }))

/-- Row selection of `_get_safe_areas`: category `Safe`, year 2024,
stage ascending, `LIMIT 15`. -/
def safeRows (db : Store) : List Row :=
  (sortLe (fun r1 r2 => decide (r1.ga.stage_of_extraction ≤ r2.ga.stage_of_extraction))
    ((joinedRows db).filter (fun r =>
      r.ga.category == "Safe" && r.ga.assessment_year == 2024))).take 15

/-- `QueryProcessor._get_safe_areas`. -/
def get_safe_areas (db : Store) : RespData :=
  .safe ((safeRows db).map (fun r =>
    { block := r.b.block_name
      district := r.d.district_name
      state := r.s.state_name
      extraction_percentage := round2 r.ga.stage_of_extraction
      annual_recharge := round2 r.ga.annual_recharge_mcm }))

/-- Row selection of the location branch of `_get_water_levels`. -/
def wlRows (db : Store) (location : List Char) : List Row :=
  ((joinedRows db).filter (fun r =>
    locMatch location r && r.ga.assessment_year == 2024)).take 10

/-- `QueryProcessor._get_water_levels`.  The no-location branch averages
over the bare `groundwater_assessment` table (no join); with no 2024
rows, SQL `AVG` is NULL and Python `round(None, 2)` raises, modelled as
`none`. -/
def get_water_levels (db : Store) (e : Entities) : Option RespData :=
  match e.locations with
  | location :: _ =>
    some (.waterLoc location ((wlRows db location).map (fun r =>
      { block := r.b.block_name
        pre_monsoon := round2 r.ga.water_level_pre_monsoon
        post_monsoon := round2 r.ga.water_level_post_monsoon
        year := r.ga.assessment_year })))
  | [] =>
    let rows := db.assessments.filter (fun ga => ga.assessment_year == 2024)
    if rows.isEmpty then none
    else
      some (.waterNat
        (round2 (avgQ (rows.map (fun ga => ga.water_level_pre_monsoon))))
        (round2 (avgQ (rows.map (fun ga => ga.water_level_post_monsoon)))))

/-- Row selection of the location branch of `_get_historical_data`
(no year restriction at all in this query). -/
def histRows (db : Store) (location : List Char) : List Row :=
  (joinedRows db).filter (fun r => locMatch location r)

/-- `GROUP BY assessment_year ORDER BY assessment_year` over a list of
rows with a year and the three aggregated columns. -/
def histTrends (years : List Nat) (stage pre : Nat → List ℚ)
    (blockIds : Nat → List Nat) : List HistRec :=
  (sortLe (fun a b => decide (a ≤ b)) years.dedup).map (fun y =>
    { year := y
      avg_extraction := round2 (avgQ (stage y))
      avg_water_level := round2 (avgQ (pre y))
      blocks_assessed := (blockIds y).dedup.length })

/-- `QueryProcessor._get_historical_data`.  The local `years` binding of
the source is read from the entities and never used; it is kept as the
anonymous `let`. -/
def get_historical_data (db : Store) (e : Entities) : RespData :=
  let _ := if e.years.isEmpty then [2020, 2021, 2022, 2023, 2024] else e.years
  match e.locations with
  | location :: _ =>
    let rows := histRows db location
    .historical
      (histTrends (rows.map (fun r => r.ga.assessment_year))
        (fun y => (rows.filter (fun r => r.ga.assessment_year == y)).map
          (fun r => r.ga.stage_of_extraction))
        (fun y => (rows.filter (fun r => r.ga.assessment_year == y)).map
          (fun r => r.ga.water_level_pre_monsoon))
        (fun y => (rows.filter (fun r => r.ga.assessment_year == y)).map
          (fun r => r.b.block_id)))
      location
  | [] =>
    let rows := db.assessments
    .historical
      (histTrends (rows.map (fun ga => ga.assessment_year))
        (fun y => (rows.filter (fun ga => ga.assessment_year == y)).map
          (fun ga => ga.stage_of_extraction))
        (fun y => (rows.filter (fun ga => ga.assessment_year == y)).map
          (fun ga => ga.water_level_pre_monsoon))
        (fun y => (rows.filter (fun ga => ga.assessment_year == y)).map
          (fun ga => ga.block_id)))
      (chars "All India")

/-- Row selection of the location branch of `_get_recharge_data`. -/
def rechRows (db : Store) (location : List Char) : List Row :=
  ((joinedRows db).filter (fun r =>
    locMatch location r && r.ga.assessment_year == 2024)).take 10

/-- `QueryProcessor._get_recharge_data` (`none` models the
`round(None, 2)` failure of the national branch on an empty AVG). -/
def get_recharge_data (db : Store) (e : Entities) : Option RespData :=
  match e.locations with
  | location :: _ =>
    some (.rechargeLoc location ((rechRows db location).map (fun r =>
      { block := r.b.block_name
        annual_recharge := round2 r.ga.annual_recharge_mcm
        extractable_resources := round2 r.ga.extractable_resources_mcm })))
  | [] =>
    let rows := db.assessments.filter (fun ga => ga.assessment_year == 2024)
    if rows.isEmpty then none
    else
      some (.rechargeNat
        (round2 (avgQ (rows.map (fun ga => ga.annual_recharge_mcm))))
        (round2 (avgQ (rows.map (fun ga => ga.extractable_resources_mcm))))
        (round2 ((rows.map (fun ga => ga.annual_recharge_mcm)).sum)))

/-- Row selection of the location branch of `_get_extraction_data`. -/
def extRows (db : Store) (location : List Char) : List Row :=
  ((joinedRows db).filter (fun r =>
    locMatch location r && r.ga.assessment_year == 2024)).take 10

/-- `QueryProcessor._get_extraction_data` (`none` models the
`round(None, 2)` failure of the national branch on an empty AVG). -/
def get_extraction_data (db : Store) (e : Entities) : Option RespData :=
  match e.locations with
  | location :: _ =>
    some (.extractionLoc location ((extRows db location).map (fun r =>
      { block := r.b.block_name
        total_extraction := round2 r.ga.total_extraction_mcm
        extraction_stage := round2 r.ga.stage_of_extraction
        category := r.ga.category })))
  | [] =>
    let rows := db.assessments.filter (fun ga => ga.assessment_year == 2024)
    if rows.isEmpty then none
    else
      some (.extractionNat
        (round2 (avgQ (rows.map (fun ga => ga.total_extraction_mcm))))
        (round2 (avgQ (rows.map (fun ga => ga.stage_of_extraction))))
        (round2 ((rows.map (fun ga => ga.total_extraction_mcm)).sum)))

/-- `QueryProcessor._get_general_stats`: distinct counts and the average
stage over the 2024 join (`none` models `round(None, 2)` on the NULL AVG
when no 2024 row survives the join). -/
def get_general_stats (db : Store) : Option RespData :=
  let rows := (joinedRows db).filter (fun r => r.ga.assessment_year == 2024)
  if rows.isEmpty then none
  else
    some (.general
      { states_covered := (rows.map (fun r => r.s.state_id)).dedup.length
        districts_covered := (rows.map (fun r => r.d.district_id)).dedup.length
        blocks_covered := (rows.map (fun r => r.b.block_id)).dedup.length
        average_extraction_stage :=
          round2 (avgQ (rows.map (fun r => r.ga.stage_of_extraction))) })

/-- `QueryProcessor._get_help_info` (static, no store access). -/
def get_help_info : RespData :=
  .helpInfo
    [ "You can ask about groundwater status in any state/district/block.",
      "Examples:",
      "- What is the groundwater status in Karnataka?",
      "- Show critical areas in Tamil Nadu",
      "- What is the average water level in Delhi?",
      "- Give me historical trends for Punjab",
      "- Compare extraction between states",
      "- List safe areas in Maharashtra",
      "- Show recharge and extraction rates" ]

/-- `QueryProcessor._get_response_data`: the intent dispatch chain; the
final `else` is `_get_general_stats`. -/
def get_response_data (db : Store) (intent : String) (e : Entities) :
    Option RespData :=
  if intent == "groundwater_status" then some (get_groundwater_status db e)
  else if intent == "critical_areas" then some (get_critical_areas db)
  else if intent == "safe_areas" then some (get_safe_areas db)
  else if intent == "water_level" then get_water_levels db e
  else if intent == "historical" then some (get_historical_data db e)
  else if intent == "recharge" then get_recharge_data db e
  else if intent == "extraction" then get_extraction_data db e
  else if intent == "help" then some get_help_info
  else get_general_stats db

/-- The dictionary returned by `process_query`. -/
structure ProcResult : Type where
  intent : String
  entities : Entities
  data : Option RespData
  query : List Char
deriving Repr, DecidableEq

/-- `QueryProcessor.process_query` against a reachable store `db` whose
catalog is `cat` during extraction (`none` when the catalog read fails). -/
def process_query (tbl : List (String × List RE))
    (setIter : List (List Char) → List (List Char)) (cat : Option Catalog)
    (db : Store) (q : List Char) : ProcResult :=
  let (intent, entities) := classify_intent tbl setIter cat q
  { intent := intent
    entities := entities
    data := get_response_data db intent entities
    query := q }

/-- The only mutable state a `QueryProcessor` instance carries: both
fields are assigned in `__init__` and never written again. -/
structure ProcState : Type where
  db_path : String
  intent_patterns : List (String × List RE)

/-- `process_query` as a state transformer over the instance state,
returning the (unchanged) instance alongside the result. -/
def process_query_st (st : ProcState)
    (setIter : List (List Char) → List (List Char)) (cat : Option Catalog)
    (db : Store) (q : List Char) : ProcResult × ProcState :=
  (process_query st.intent_patterns setIter cat db q, st)

/-- The eight intents with a dedicated branch in `_get_response_data`;
everything else falls into the final `else` (`_get_general_stats`). -/
def handledIntents : List String :=
  [ "groundwater_status", "critical_areas", "safe_areas", "water_level",
    "historical", "recharge", "extraction", "help" ]

/-- A one-block store whose block name is `Delhi` while its district and
state names (`Amritsar`, `Punjab`) do not contain `delhi`; used to
instantiate theorems at a concrete input. -/
def dbW : Store :=
  { states := [{ state_id := 1, state_name := "Punjab" }]
    districts := [{ district_id := 1, district_name := "Amritsar", state_id := 1 }]
    blocks := [{ block_id := 1, block_name := "Delhi", district_id := 1 }]
    assessments :=
      [{ block_id := 1, assessment_year := 2024, annual_recharge_mcm := 10,
         extractable_resources_mcm := 9, total_extraction_mcm := 5,
         stage_of_extraction := 50, category := "Safe",
         water_level_pre_monsoon := 12, water_level_post_monsoon := 10 }] }

/-- An empty entities dictionary for concrete instantiations. -/
def eW : Entities := { locations := [], years := [], categories := [] }

/-- An entities dictionary holding the single location `Delhi`. -/
def eDelhi : Entities :=
  { locations := [chars "Delhi"], years := [], categories := [] }

/-! ## Helper lemmas -/

theorem mem_insertLe {α : Type _} {le : α → α → Bool} {a x : α} :
    ∀ {l : List α}, x ∈ insertLe le a l ↔ x = a ∨ x ∈ l
  | [] => by simp [insertLe]
  | b :: t => by
    simp only [insertLe]
    split
    · simp [List.mem_cons]
    · rw [List.mem_cons, List.mem_cons, mem_insertLe (l := t)]
      tauto

theorem mem_sortLe {α : Type _} {le : α → α → Bool} {x : α} :
    ∀ {l : List α}, x ∈ sortLe le l ↔ x ∈ l
  | [] => Iff.rfl
  | a :: t => by
    simp only [sortLe, mem_insertLe, List.mem_cons, mem_sortLe (l := t)]

theorem pairwise_insertLe {α : Type _} {le : α → α → Bool}
    (htot : ∀ a b, le a b = true ∨ le b a = true)
    (htrans : ∀ a b c, le a b = true → le b c = true → le a c = true)
    (a : α) :
    ∀ {l : List α}, l.Pairwise (fun x y => le x y = true) →
      (insertLe le a l).Pairwise (fun x y => le x y = true)
  | [], _ => by simp [insertLe]
  | b :: t, h => by
    rcases List.pairwise_cons.1 h with ⟨hb, ht⟩
    by_cases hab : le a b = true
    · simp only [insertLe, hab, if_true]
      refine List.pairwise_cons.2 ⟨?_, h⟩
      intro x hx
      rcases List.mem_cons.1 hx with rfl | hx
      · exact hab
      · exact htrans _ _ _ hab (hb x hx)
    · have hba : le b a = true := (htot a b).resolve_left hab
      simp only [insertLe, hab, if_false]
      refine List.pairwise_cons.2
        ⟨?_, pairwise_insertLe htot htrans a ht⟩
      intro x hx
      rcases mem_insertLe.1 hx with rfl | hx
      · exact hba
      · exact hb x hx

theorem pairwise_sortLe {α : Type _} {le : α → α → Bool}
    (htot : ∀ a b, le a b = true ∨ le b a = true)
    (htrans : ∀ a b c, le a b = true → le b c = true → le a c = true) :
    ∀ (l : List α), (sortLe le l).Pairwise (fun x y => le x y = true)
  | [] => List.Pairwise.nil
  | a :: t => pairwise_insertLe htot htrans a (pairwise_sortLe htot htrans t)

theorem round2_mono {x y : ℚ} (h : x ≤ y) : round2 x ≤ round2 y := by
  unfold round2
  have h2 : round (x * 100) ≤ round (y * 100) := by
    rw [round_eq, round_eq]
    exact Int.floor_le_floor (by linarith)
  have h3 : ((round (x * 100) : ℤ) : ℚ) ≤ ((round (y * 100) : ℤ) : ℚ) := by
    exact_mod_cast h2
  linarith

theorem findIntent_of_no_match {ql : List Char} :
    ∀ {tbl : List (String × List RE)},
      (∀ ip ∈ tbl, ∀ p ∈ ip.2, research p ql = false) →
        findIntent tbl ql = none
  | [], _ => rfl
  | (i, ps) :: rest, h => by
    simp only [findIntent]
    rw [if_neg, findIntent_of_no_match
      (fun ip hip p hp => h ip (List.mem_cons_of_mem _ hip) p hp)]
    simp only [List.any_eq_true, not_exists, not_and]
    intro p hp
    simp [h (i, ps) (List.mem_cons_self _ _) p hp]

theorem findIntent_append {ql : List Char} (i : String) (ps : List RE)
    (post : List (String × List RE)) :
    ∀ (pre : List (String × List RE)),
      (∀ ip ∈ pre, ∀ p ∈ ip.2, research p ql = false) →
      (∃ p ∈ ps, research p ql = true) →
      findIntent (pre ++ (i, ps) :: post) ql = some i
  | [], _, hm => by
    simp only [List.nil_append, findIntent]
    rw [if_pos]
    simpa [List.any_eq_true] using hm
  | (j, qs) :: tl, hpre, hm => by
    simp only [List.cons_append, findIntent]
    rw [if_neg]
    · exact findIntent_append i ps post tl
        (fun ip hip p hp => hpre ip (List.mem_cons_of_mem _ hip) p hp) hm
    · simp only [List.any_eq_true, not_exists, not_and]
      intro p hp
      simp [hpre (j, qs) (List.mem_cons_self _ _) p hp]

/-! ## Claim theorems -/

/-- C2: the resolver is total over intents with an explicit fallback —
the intent `comparison` (recognized by the classifier, never dispatched
to a dedicated strategy) and every intent outside the eight handled ones
resolve to exactly the `general` behavior, `_get_general_stats` (the
year-2024 national aggregate), never to an error branch or another
intent's strategy. -/
theorem resolver_total_fallback (db : Store) (e : Entities) :
    get_response_data db "comparison" e = get_general_stats db ∧
    ∀ intent : String, intent ∉ handledIntents →
      get_response_data db intent e = get_general_stats db := by
  have hgen : ∀ intent : String, intent ∉ handledIntents →
      get_response_data db intent e = get_general_stats db := by
    intro intent h
    simp only [handledIntents, List.mem_cons, List.not_mem_nil, or_false,
      not_or] at h
    obtain ⟨h1, h2, h3, h4, h5, h6, h7, h8⟩ := h
    simp [get_response_data, h1, h2, h3, h4, h5, h6, h7, h8]
  exact ⟨hgen "comparison" (by decide), hgen⟩

/-- C2 witness: a concrete unrecognized intent at a concrete store. -/
theorem resolver_total_fallback_witness :
    get_response_data dbW "compare_stuff" eW = get_general_stats dbW :=
  (resolver_total_fallback dbW eW).2 "compare_stuff" (by decide)

/-- C3: when the reference-catalog store is unreachable or its schema is
missing (`cat = none`, the exception path of `_extract_locations`),
location extraction returns the empty list — no error escapes, the
function's type has no failure outcome — and the entities dictionary has
no `locations` key (the empty list in this model). -/
theorem extract_locations_store_down
    (setIter : List (List Char) → List (List Char))
    (hset : ∀ (l : List (List Char)) (x : List Char), x ∈ setIter l ↔ x ∈ l)
    (q : List Char) :
    extract_locations setIter none q = [] ∧
    (extract_entities setIter none q).locations = [] := by
  have h : setIter [] = [] := by
    rw [List.eq_nil_iff_forall_not_mem]
    intro x hx
    exact (List.not_mem_nil x) ((hset [] x).1 hx)
  constructor
  · simpa [extract_locations] using h
  · simpa [extract_entities, extract_locations] using h

/-- C3 witness: the CPython set-iteration parameter instantiated with
`List.dedup` at a concrete query. -/
theorem extract_locations_store_down_witness :
    extract_locations List.dedup none (chars "groundwater status of delhi") = [] ∧
    (extract_entities List.dedup none
      (chars "groundwater status of delhi")).locations = [] :=
  extract_locations_store_down List.dedup (fun _ _ => List.mem_dedup) _

/-- C8: category extraction is four independent, non-exclusive substring
checks over the lower-cased query (`safe` → Safe, `critical` → Critical,
`semi` or `semi-critical` → Semi-Critical, `over` or `exploited` →
Over-Exploited); in particular a query containing both `semi` and
`critical` gets both Semi-Critical and Critical, and the `categories`
key is present exactly when at least one check fires. -/
theorem extract_categories_independent (q : List Char) :
    ("Safe" ∈ extractCats q ↔ hasSub (chars "safe") q = true) ∧
    ("Critical" ∈ extractCats q ↔ hasSub (chars "critical") q = true) ∧
    ("Semi-Critical" ∈ extractCats q ↔
      (hasSub (chars "semi") q || hasSub (chars "semi-critical") q) = true) ∧
    ("Over-Exploited" ∈ extractCats q ↔
      (hasSub (chars "over") q || hasSub (chars "exploited") q) = true) ∧
    (extractCats q ≠ [] ↔
      (hasSub (chars "safe") q || hasSub (chars "critical") q ||
       hasSub (chars "semi") q || hasSub (chars "semi-critical") q ||
       hasSub (chars "over") q || hasSub (chars "exploited") q) = true) := by
  cases h1 : hasSub (chars "safe") q <;>
    cases h2 : hasSub (chars "critical") q <;>
    cases h3 : hasSub (chars "semi") q <;>
    cases h4 : hasSub (chars "semi-critical") q <;>
    cases h5 : hasSub (chars "over") q <;>
    cases h6 : hasSub (chars "exploited") q <;>
    simp [extractCats, h1, h2, h3, h4, h5, h6]

/-- C9: `process_query` is idempotent and deterministic — the instance
state (`db_path`, `intent_patterns`) comes out of a call unchanged, and a
second call with the same query against the same store and the resulting
state returns the identical result dictionary (intent, entities with
their list orders, data and query). -/
theorem process_query_idempotent (st : ProcState)
    (setIter : List (List Char) → List (List Char)) (cat : Option Catalog)
    (db : Store) (q : List Char) :
    (process_query_st st setIter cat db q).2 = st ∧
    (process_query_st (process_query_st st setIter cat db q).2
        setIter cat db q).1 =
      (process_query_st st setIter cat db q).1 :=
  ⟨rfl, rfl⟩

/-- C10: the `historical` resolution never reads the extracted years —
any two entity dictionaries with the same locations produce the same
`historical_trends` result (the years list is bound to a local default
in the source and never used). -/
theorem historical_ignores_years (db : Store) (e1 e2 : Entities)
    (h : e1.locations = e2.locations) :
    get_historical_data db e1 = get_historical_data db e2 := by
  unfold get_historical_data
  rw [h]

/-- C10 witness: entity dictionaries differing only in `years`. -/
theorem historical_ignores_years_witness :
    get_historical_data dbW
        { locations := [], years := [2030], categories := [] } =
      get_historical_data dbW eW :=
  historical_ignores_years dbW _ eW rfl

/-- C4: resolving `groundwater_status` uses the first extracted location
(default `Delhi`) and the first extracted year (default 2024) and returns
at most 10 block records of that year whose state or district name
contains the location case-insensitively, numeric fields rounded to two
decimals. -/
theorem groundwater_status_resolution (db : Store) (e : Entities) :
    get_response_data db "groundwater_status" e =
      some (.groundwater (e.locations.headD (chars "Delhi"))
        (e.years.headD 2024)
        ((gsRows db (e.locations.headD (chars "Delhi"))
            (e.years.headD 2024)).map (fun r =>
          { block_name := r.b.block_name
            category := r.ga.category
            stage_of_extraction := round2 r.ga.stage_of_extraction
            water_level := round2 r.ga.water_level_pre_monsoon
            annual_recharge := round2 r.ga.annual_recharge_mcm
            district := r.d.district_name
            state := r.s.state_name }))) ∧
    (gsRows db (e.locations.headD (chars "Delhi"))
      (e.years.headD 2024)).length ≤ 10 ∧
    ∀ r ∈ gsRows db (e.locations.headD (chars "Delhi"))
        (e.years.headD 2024),
      locMatch (e.locations.headD (chars "Delhi")) r = true ∧
      r.ga.assessment_year = e.years.headD 2024 := by
  refine ⟨?_, List.length_take_le _ _, ?_⟩
  · rcases e with ⟨locs, yrs, cats⟩
    cases locs <;> cases yrs <;> rfl
  · intro r hr
    simp only [gsRows] at hr
    rcases List.mem_filter.1 (List.mem_of_mem_take hr) with ⟨_, hp⟩
    rw [Bool.and_eq_true] at hp
    obtain ⟨hl, hy⟩ := hp
    exact ⟨hl, by simpa using hy⟩

/-- C5: resolving `safe_areas` (with any entities) returns at most 15
records, all drawn from rows with category `Safe` and assessment year
2024, ordered ascending by stage of extraction (and hence by the rounded
`extraction_percentage` field of the records). -/
theorem safe_areas_resolution (db : Store) (e : Entities) :
    get_response_data db "safe_areas" e = some (get_safe_areas db) ∧
    get_safe_areas db = .safe ((safeRows db).map (fun r =>
      { block := r.b.block_name
        district := r.d.district_name
        state := r.s.state_name
        extraction_percentage := round2 r.ga.stage_of_extraction
        annual_recharge := round2 r.ga.annual_recharge_mcm })) ∧
    (safeRows db).length ≤ 15 ∧
    (∀ r ∈ safeRows db,
      r.ga.category = "Safe" ∧ r.ga.assessment_year = 2024) ∧
    ((safeRows db).map (fun r => round2 r.ga.stage_of_extraction)).Pairwise
      (· ≤ ·) := by
  refine ⟨rfl, rfl, List.length_take_le _ _, ?_, ?_⟩
  · intro r hr
    simp only [safeRows] at hr
    rcases List.mem_filter.1 (mem_sortLe.1 (List.mem_of_mem_take hr)) with
      ⟨_, hp⟩
    rw [Bool.and_eq_true] at hp
    obtain ⟨hc, hy⟩ := hp
    exact ⟨by simpa using hc, by simpa using hy⟩
  · refine List.pairwise_map.2 ?_
    refine List.Pairwise.imp (fun h => round2_mono (of_decide_eq_true h)) ?_
    simp only [safeRows]
    refine List.Pairwise.sublist (List.take_sublist _ _) ?_
    exact pairwise_sortLe
      (fun (a b : Row) => (le_total a.ga.stage_of_extraction
        b.ga.stage_of_extraction).imp decide_eq_true decide_eq_true)
      (fun (a b c : Row) hab hbc => decide_eq_true
        (le_trans (of_decide_eq_true hab) (of_decide_eq_true hbc))) _

/-- C6: every location-scoped selection filters by a case-insensitive
substring match against state and district names only, never the block
name — if no joined row's state or district matches the location, the
scoped result lists of `groundwater_status`, `water_level`, `recharge`,
`extraction` and `historical` are all empty, whatever block names say. -/
theorem location_filter_state_district_only (db : Store) (loc : List Char)
    (h : ∀ r ∈ joinedRows db, locMatch loc r = false) :
    (∀ y, gsRows db loc y = []) ∧ wlRows db loc = [] ∧
    rechRows db loc = [] ∧ extRows db loc = [] ∧ histRows db loc = [] ∧
    ∀ e : Entities, e.locations.head? = some loc →
      get_response_data db "groundwater_status" e =
        some (.groundwater loc (e.years.headD 2024) []) ∧
      get_response_data db "water_level" e = some (.waterLoc loc []) ∧
      get_response_data db "recharge" e = some (.rechargeLoc loc []) ∧
      get_response_data db "extraction" e = some (.extractionLoc loc []) ∧
      get_response_data db "historical" e = some (.historical [] loc) := by
  have hy : ∀ (x : Row → Bool),
      ((joinedRows db).filter (fun r => locMatch loc r && x r)) = [] := by
    intro x
    rw [List.filter_eq_nil_iff]
    intro r hr hp
    simp [h r hr] at hp
  have hloc : ((joinedRows db).filter (fun r => locMatch loc r)) = [] := by
    rw [List.filter_eq_nil_iff]
    intro r hr hp
    simp [h r hr] at hp
  refine ⟨fun y => ?_, ?_, ?_, ?_, ?_, ?_⟩
  · simp [gsRows, hy]
  · simp [wlRows, hy]
  · simp [rechRows, hy]
  · simp [extRows, hy]
  · simpa [histRows] using hloc
  · rintro ⟨locs, yrs, cats⟩ he
    cases locs with
    | nil => exact absurd he (by simp)
    | cons a t =>
      have ha : a = loc := by simpa using he
      have h5 : histRows db loc = [] := by simpa [histRows] using hloc
      refine ⟨?_, ?_, ?_, ?_, ?_⟩
      · cases yrs <;>
          simp [get_response_data, get_groundwater_status, gsRows, ha, hy]
      · simp [get_response_data, get_water_levels, wlRows, ha, hy]
      · simp [get_response_data, get_recharge_data, rechRows, ha, hy]
      · simp [get_response_data, get_extraction_data, extRows, ha, hy]
      · simp [get_response_data, get_historical_data, ha, h5, histTrends,
          sortLe]

/-- C6 witness: a store whose only block is named `Delhi` while district
and state are `Amritsar` / `Punjab`; the location `Delhi` is a substring
of the block name yet every scoped result is empty. -/
theorem location_filter_state_district_only_witness :
    (∀ r ∈ joinedRows dbW, locMatch (chars "Delhi") r = false) ∧
    hasSub (lowerL (chars "Delhi")) (lowerL (chars "Delhi")) = true ∧
    gsRows dbW (chars "Delhi") 2024 = [] ∧
    get_response_data dbW "water_level" eDelhi =
      some (.waterLoc (chars "Delhi") []) := by
  have h : ∀ r ∈ joinedRows dbW, locMatch (chars "Delhi") r = false := by
    decide
  refine ⟨h, by decide,
    (location_filter_state_district_only dbW (chars "Delhi") h).1 2024, ?_⟩
  exact ((location_filter_state_district_only dbW (chars "Delhi")
    h).2.2.2.2.2 eDelhi rfl).2.1

/-- C1: intent classification is first-match over the static table — if
no pattern of any intent matches anywhere in the lower-cased query the
result is `general`, and whenever the table splits as
`pre ++ (i, ps) :: post` with no pattern of `pre` matching and some
pattern of `ps` matching, the result is `i` (intents in declaration
order, the first matching intent category wins). -/
theorem classify_first_match
    (setIter : List (List Char) → List (List Char)) (cat : Option Catalog)
    (q : List Char) :
    ((∀ ip ∈ intentTable, ∀ p ∈ ip.2, research p (lowerL q) = false) →
      (classify_intent intentTable setIter cat q).1 = "general") ∧
    (∀ (pre : List (String × List RE)) (i : String) (ps : List RE)
        (post : List (String × List RE)),
      intentTable = pre ++ (i, ps) :: post →
      (∀ ip ∈ pre, ∀ p ∈ ip.2, research p (lowerL q) = false) →
      (∃ p ∈ ps, research p (lowerL q) = true) →
      (classify_intent intentTable setIter cat q).1 = i) := by
  constructor
  · intro h
    simp only [classify_intent]
    rw [findIntent_of_no_match h]
  · intro pre i ps post htbl hpre hm
    simp only [classify_intent]
    rw [htbl, findIntent_append i ps post pre hpre hm]

/-- C1 witness: `show critical areas` falls past `groundwater_status`
(the first intent) into `critical_areas`; `hello there` matches nothing
and classifies as `general`. -/
theorem classify_first_match_witness :
    (classify_intent intentTable List.dedup none
      (chars "show critical areas")).1 = "critical_areas" ∧
    (classify_intent intentTable List.dedup none
      (chars "hello there")).1 = "general" := by
  constructor
  · exact (classify_first_match List.dedup none
      (chars "show critical areas")).2 (intentTable.take 1) "critical_areas"
      (intentTable.get ⟨1, by decide⟩).2 (intentTable.drop 2) (by rfl)
      (by decide)
      ⟨(intentTable.get ⟨1, by decide⟩).2.headD RE.empt, by decide, by decide⟩
  · exact (classify_first_match List.dedup none
      (chars "hello there")).1 (by decide)

theorem prevAt_succ_cons (prev : Option Char) (c : Char) (t : List Char)
    (i : Nat) : prevAt prev (c :: t) (i + 1) = prevAt (some c) t i := by
  cases i with
  | zero => rfl
  | succ j => rfl

theorem boundedYearsFrom_cons (prev : Option Char) (c : Char)
    (t : List Char) :
    boundedYearsFrom prev (c :: t) =
      (if yearHere prev (c :: t) then [valHead (c :: t)] else []) ++
        boundedYearsFrom (some c) t := by
  simp only [boundedYearsFrom, List.length_cons, List.range_succ_eq_map,
    List.filter_cons, List.filter_map, List.map_map, Function.comp_def,
    prevAt_succ_cons, List.drop_succ_cons, List.drop_zero]
  rw [show prevAt prev (c :: t) 0 = prev from rfl]
  split
  · simp
  · simp

theorem yearHere_of_len_lt (prev : Option Char) :
    ∀ (s : List Char), s.length < 4 → yearHere prev s = false
  | [], _ => rfl
  | [_], _ => rfl
  | [_, _], _ => rfl
  | [_, _, _], _ => rfl
  | _ :: _ :: _ :: _ :: _, h => by
    simp only [List.length_cons] at h
    omega

theorem boundedYearsFrom_of_len_lt :
    ∀ (s : List Char) (prev : Option Char), s.length < 4 →
      boundedYearsFrom prev s = []
  | [], _, _ => rfl
  | c :: t, prev, h => by
    rw [boundedYearsFrom_cons, yearHere_of_len_lt prev _ h]
    simp only [Bool.false_eq_true, if_false, List.nil_append]
    exact boundedYearsFrom_of_len_lt t (some c)
      (by simp only [List.length_cons] at h; omega)

theorem isWordCh_of_isDigit (c : Char) (h : c.isDigit = true) :
    isWordCh c = true := by
  simp [isWordCh, Char.isAlphanum, h]

theorem yearHere_false_of_word_prev (p : Char) (hw : isWordCh p = true) :
    ∀ (s : List Char), yearHere (some p) s = false
  | [] => rfl
  | [_] => rfl
  | [_, _] => rfl
  | [_, _, _] => rfl
  | _ :: _ :: _ :: _ :: _ => by simp [yearHere, hw]

theorem yearsFrom_eq_bounded (prev : Option Char) (s : List Char) :
    yearsFrom prev s = boundedYearsFrom prev s := by
  induction prev, s using yearsFrom.induct with
  | case1 prev c1 c2 c3 c4 rest hguard ih =>
    have hb := hguard
    simp only [yearHere, Bool.and_eq_true, beq_iff_eq] at hb
    obtain ⟨⟨⟨⟨⟨hprev, h1⟩, h2⟩, h3⟩, h4⟩, h5⟩ := hb
    have hg1 : yearHere (some c1) (c2 :: c3 :: c4 :: rest) = false := by
      subst h1
      exact yearHere_false_of_word_prev _ (by decide) _
    have hg2 : yearHere (some c2) (c3 :: c4 :: rest) = false := by
      subst h2
      exact yearHere_false_of_word_prev _ (by decide) _
    have hg3 : yearHere (some c3) (c4 :: rest) = false :=
      yearHere_false_of_word_prev _ (isWordCh_of_isDigit _ h3) _
    simp only [yearsFrom]
    rw [if_pos hguard, ih,
      boundedYearsFrom_cons prev c1 (c2 :: c3 :: c4 :: rest),
      if_pos hguard,
      boundedYearsFrom_cons (some c1) c2 (c3 :: c4 :: rest), hg1,
      boundedYearsFrom_cons (some c2) c3 (c4 :: rest), hg2,
      boundedYearsFrom_cons (some c3) c4 rest, hg3]
    simp [valHead]
  | case2 prev c1 c2 c3 c4 rest hguard ih =>
    have hf : yearHere prev (c1 :: c2 :: c3 :: c4 :: rest) = false :=
      Bool.eq_false_iff.mpr hguard
    simp only [yearsFrom]
    rw [if_neg hguard, ih,
      boundedYearsFrom_cons prev c1 (c2 :: c3 :: c4 :: rest), hf]
    simp
  | case3 t prev h =>
    rcases t with _ | ⟨a, _ | ⟨b, _ | ⟨c, _ | ⟨d, t2⟩⟩⟩⟩
    · rfl
    · rw [boundedYearsFrom_of_len_lt _ _ (by simp)]
      rfl
    · rw [boundedYearsFrom_of_len_lt _ _ (by simp)]
      rfl
    · rw [boundedYearsFrom_of_len_lt _ _ (by simp)]
      rfl
    · exact (h a b c d t2 rfl).elim

/-- C7 counterexample: the claim says year extraction finds **all**
4-digit substrings matching `20\d\d`; on the query `12024` the substring
`2024` matches `20\d\d`, yet `re.findall(r'\b(20\d{2})\b', ...)` finds
nothing because the `\b` word boundary fails after the leading `1`. -/
theorem extractYears_cex :
    extractYears (chars "12024") = [] ∧
    specYears (chars "12024") = [2024] ∧
    extractYears (chars "12024") ≠ specYears (chars "12024") := by
  refine ⟨by decide, by decide, by decide⟩

/-- C7 (amended): year extraction finds exactly the 4-digit substrings
matching `20\d\d` that are delimited by word boundaries (the adjacent
characters, when present, are not letters, digits or underscore), in
order of occurrence with duplicates preserved; the `years` key is
present exactly when at least one such delimited occurrence exists. -/
theorem extractYears_bounded_occurrences (q : List Char) :
    extractYears q = boundedYears q ∧
    (extractYears q ≠ [] ↔
      ∃ i < q.length, yearHere (prevAt none q i) (q.drop i) = true) := by
  have h := yearsFrom_eq_bounded none q
  refine ⟨h, ?_⟩
  rw [show extractYears q = boundedYears q from h]
  unfold boundedYears boundedYearsFrom
  simp [ne_eq, List.map_eq_nil_iff, List.filter_eq_nil_iff, List.mem_range,
    not_forall]

end Ingres
